import Mathlib

/-
Verification of components/hal/include/hal/mipi_dsi_types.h.

The header declares two C enumerations (`mipi_dsi_data_type_t`,
`mipi_dsi_pattern_type_t`) and two typedef aliases
(`mipi_dsi_phy_clock_source_t`, `mipi_dsi_dpi_clock_source_t`) whose
referent depends on the compile-time switch SOC_MIPI_DSI_SUPPORTED.
Each enumeration is embedded as a Lean inductive together with a value
function giving each enumerator its C integer value; the conditional
typedefs are embedded as Bool-indexed type functions; the header's set
of declarations is embedded as a list of (name, kind) pairs.
-/

namespace MipiDsi

/-- MIPI DSI Data Type (DT): the 27 enumerators of `mipi_dsi_data_type_t`
from mipi_dsi_types.h, lines 20-48, in declaration order. -/
inductive mipi_dsi_data_type_t where
  | MIPI_DSI_DT_VSYNC_START
  | MIPI_DSI_DT_VSYNC_END
  | MIPI_DSI_DT_HSYNC_START
  | MIPI_DSI_DT_HSYNC_END
  | MIPI_DSI_DT_EOT_PACKET
  | MIPI_DSI_DT_COLOR_MODE_OFF
  | MIPI_DSI_DT_COLOR_MODE_ON
  | MIPI_DSI_DT_SHUTDOWN_PERIPHERAL
  | MIPI_DSI_DT_TURN_ON_PERIPHERAL
  | MIPI_DSI_DT_GENERIC_SHORT_WRITE_0
  | MIPI_DSI_DT_GENERIC_SHORT_WRITE_1
  | MIPI_DSI_DT_GENERIC_SHORT_WRITE_2
  | MIPI_DSI_DT_GENERIC_READ_REQUEST_0
  | MIPI_DSI_DT_GENERIC_READ_REQUEST_1
  | MIPI_DSI_DT_GENERIC_READ_REQUEST_2
  | MIPI_DSI_DT_DCS_SHORT_WRITE_0
  | MIPI_DSI_DT_DCS_SHORT_WRITE_1
  | MIPI_DSI_DT_DCS_READ_0
  | MIPI_DSI_DT_SET_MAXIMUM_RETURN_PKT
  | MIPI_DSI_DT_NULL_PACKET
  | MIPI_DSI_DT_BLANKING_PACKET
  | MIPI_DSI_DT_GENERIC_LONG_WRITE
  | MIPI_DSI_DT_DCS_LONG_WRITE
  | MIPI_DSI_DT_PACKED_PIXEL_STREAM_RGB_16
  | MIPI_DSI_DT_PACKED_PIXEL_STREAM_RGB_18
  | MIPI_DSI_DT_LOOSELY_PIXEL_STREAM_RGB_18
  | MIPI_DSI_DT_PACKED_PIXEL_STREAM_RGB_24
  deriving DecidableEq, Fintype, Repr

/-- The C integer value of each `mipi_dsi_data_type_t` enumerator, exactly
the explicit initializers written in mipi_dsi_types.h lines 21-47. -/
def dataTypeVal : mipi_dsi_data_type_t → Nat
  | .MIPI_DSI_DT_VSYNC_START => 0x01
  | .MIPI_DSI_DT_VSYNC_END => 0x11
  | .MIPI_DSI_DT_HSYNC_START => 0x21
  | .MIPI_DSI_DT_HSYNC_END => 0x31
  | .MIPI_DSI_DT_EOT_PACKET => 0x08
  | .MIPI_DSI_DT_COLOR_MODE_OFF => 0x02
  | .MIPI_DSI_DT_COLOR_MODE_ON => 0x12
  | .MIPI_DSI_DT_SHUTDOWN_PERIPHERAL => 0x22
  | .MIPI_DSI_DT_TURN_ON_PERIPHERAL => 0x32
  | .MIPI_DSI_DT_GENERIC_SHORT_WRITE_0 => 0x03
  | .MIPI_DSI_DT_GENERIC_SHORT_WRITE_1 => 0x13
  | .MIPI_DSI_DT_GENERIC_SHORT_WRITE_2 => 0x23
  | .MIPI_DSI_DT_GENERIC_READ_REQUEST_0 => 0x04
  | .MIPI_DSI_DT_GENERIC_READ_REQUEST_1 => 0x14
  | .MIPI_DSI_DT_GENERIC_READ_REQUEST_2 => 0x24
  | .MIPI_DSI_DT_DCS_SHORT_WRITE_0 => 0x05
  | .MIPI_DSI_DT_DCS_SHORT_WRITE_1 => 0x15
  | .MIPI_DSI_DT_DCS_READ_0 => 0x06
  | .MIPI_DSI_DT_SET_MAXIMUM_RETURN_PKT => 0x37
  | .MIPI_DSI_DT_NULL_PACKET => 0x09
  | .MIPI_DSI_DT_BLANKING_PACKET => 0x19
  | .MIPI_DSI_DT_GENERIC_LONG_WRITE => 0x29
  | .MIPI_DSI_DT_DCS_LONG_WRITE => 0x39
  | .MIPI_DSI_DT_PACKED_PIXEL_STREAM_RGB_16 => 0x0E
  | .MIPI_DSI_DT_PACKED_PIXEL_STREAM_RGB_18 => 0x1E
  | .MIPI_DSI_DT_LOOSELY_PIXEL_STREAM_RGB_18 => 0x2E
  | .MIPI_DSI_DT_PACKED_PIXEL_STREAM_RGB_24 => 0x3E

/-- The enumerators of `mipi_dsi_data_type_t` in the order they are written
in the source file. -/
def dataTypeMembers : List mipi_dsi_data_type_t :=
  [ .MIPI_DSI_DT_VSYNC_START
  , .MIPI_DSI_DT_VSYNC_END
  , .MIPI_DSI_DT_HSYNC_START
  , .MIPI_DSI_DT_HSYNC_END
  , .MIPI_DSI_DT_EOT_PACKET
  , .MIPI_DSI_DT_COLOR_MODE_OFF
  , .MIPI_DSI_DT_COLOR_MODE_ON
  , .MIPI_DSI_DT_SHUTDOWN_PERIPHERAL
  , .MIPI_DSI_DT_TURN_ON_PERIPHERAL
  , .MIPI_DSI_DT_GENERIC_SHORT_WRITE_0
  , .MIPI_DSI_DT_GENERIC_SHORT_WRITE_1
  , .MIPI_DSI_DT_GENERIC_SHORT_WRITE_2
  , .MIPI_DSI_DT_GENERIC_READ_REQUEST_0
  , .MIPI_DSI_DT_GENERIC_READ_REQUEST_1
  , .MIPI_DSI_DT_GENERIC_READ_REQUEST_2
  , .MIPI_DSI_DT_DCS_SHORT_WRITE_0
  , .MIPI_DSI_DT_DCS_SHORT_WRITE_1
  , .MIPI_DSI_DT_DCS_READ_0
  , .MIPI_DSI_DT_SET_MAXIMUM_RETURN_PKT
  , .MIPI_DSI_DT_NULL_PACKET
  , .MIPI_DSI_DT_BLANKING_PACKET
  , .MIPI_DSI_DT_GENERIC_LONG_WRITE
  , .MIPI_DSI_DT_DCS_LONG_WRITE
  , .MIPI_DSI_DT_PACKED_PIXEL_STREAM_RGB_16
  , .MIPI_DSI_DT_PACKED_PIXEL_STREAM_RGB_18
  , .MIPI_DSI_DT_LOOSELY_PIXEL_STREAM_RGB_18
  , .MIPI_DSI_DT_PACKED_PIXEL_STREAM_RGB_24 ]

/-- Test-pattern identifiers: the enumerators of `mipi_dsi_pattern_type_t`
from mipi_dsi_types.h, lines 53-58, in declaration order. -/
inductive mipi_dsi_pattern_type_t where
  | MIPI_DSI_PATTERN_NONE
  | MIPI_DSI_PATTERN_BAR_VERTICAL
  | MIPI_DSI_PATTERN_BAR_HORIZONTAL
  | MIPI_DSI_PATTERN_BER_VERTICAL
  deriving DecidableEq, Fintype, Repr

/-- The C integer value of each `mipi_dsi_pattern_type_t` enumerator: the
source gives no explicit initializers, so C assigns consecutive values
starting at 0 in declaration order. -/
def patternVal : mipi_dsi_pattern_type_t → Nat
  | .MIPI_DSI_PATTERN_NONE => 0
  | .MIPI_DSI_PATTERN_BAR_VERTICAL => 1
  | .MIPI_DSI_PATTERN_BAR_HORIZONTAL => 2
  | .MIPI_DSI_PATTERN_BER_VERTICAL => 3

/-- The enumerators of `mipi_dsi_pattern_type_t` in source order. -/
def patternMembers : List mipi_dsi_pattern_type_t :=
  [ .MIPI_DSI_PATTERN_NONE
  , .MIPI_DSI_PATTERN_BAR_VERTICAL
  , .MIPI_DSI_PATTERN_BAR_HORIZONTAL
  , .MIPI_DSI_PATTERN_BER_VERTICAL ]

/-- Modelled from the spec: the platform-specific PHY clock-source type
`soc_periph_mipi_dsi_phy_clk_src_t`. It is declared in soc/clk_tree_defs.h,
which is not part of this source set; the spec describes it only as the
platform-specific type identifying which clock tree feeds the PHY, so it is
modelled as an opaque wrapper distinct from the generic integer fallback. -/
structure soc_periph_mipi_dsi_phy_clk_src_t where
  src : Int
  deriving DecidableEq, Repr

/-- Modelled from the spec: the platform-specific DPI clock-source type
`soc_periph_mipi_dsi_dpi_clk_src_t`. It is declared in soc/clk_tree_defs.h,
which is not part of this source set; the spec describes it only as the
platform-specific type identifying which clock tree feeds the display pixel
interface, so it is modelled as an opaque wrapper distinct from the generic
integer fallback. -/
structure soc_periph_mipi_dsi_dpi_clk_src_t where
  src : Int
  deriving DecidableEq, Repr

/-- The typedef `mipi_dsi_phy_clock_source_t`, mipi_dsi_types.h lines 60-73:
under `#if SOC_MIPI_DSI_SUPPORTED` it aliases the platform-specific PHY
clock-source type, otherwise the generic C `int`. -/
def mipi_dsi_phy_clock_source_t (SOC_MIPI_DSI_SUPPORTED : Bool) : Type :=
  if SOC_MIPI_DSI_SUPPORTED then soc_periph_mipi_dsi_phy_clk_src_t else Int

/-- The typedef `mipi_dsi_dpi_clock_source_t`, mipi_dsi_types.h lines 60-73:
under `#if SOC_MIPI_DSI_SUPPORTED` it aliases the platform-specific DPI
clock-source type, otherwise the generic C `int`. -/
def mipi_dsi_dpi_clock_source_t (SOC_MIPI_DSI_SUPPORTED : Bool) : Type :=
  if SOC_MIPI_DSI_SUPPORTED then soc_periph_mipi_dsi_dpi_clk_src_t else Int

/-- The kinds of C declarations a header can export. -/
inductive CDeclKind where
  | enumDecl
  | typedefDecl
  | functionDecl
  | variableDecl
  deriving DecidableEq, Repr

/-- One exported declaration of a C header: its name and kind. -/
structure CDecl where
  name : String
  kind : CDeclKind
  deriving DecidableEq, Repr

/-- The complete list of declarations exported by mipi_dsi_types.h, in
source order. Both branches of the `#if SOC_MIPI_DSI_SUPPORTED` conditional
declare the same two typedef names, so the list does not depend on the
switch. -/
def mipi_dsi_types_h_decls : List CDecl :=
  [ ⟨"mipi_dsi_data_type_t", CDeclKind.enumDecl⟩
  , ⟨"mipi_dsi_pattern_type_t", CDeclKind.enumDecl⟩
  , ⟨"mipi_dsi_phy_clock_source_t", CDeclKind.typedefDecl⟩
  , ⟨"mipi_dsi_dpi_clock_source_t", CDeclKind.typedefDecl⟩ ]

/-- C1: each packet data-type constant equals its specified numeric value;
in particular MIPI_DSI_DT_VSYNC_START = 0x01, MIPI_DSI_DT_DCS_LONG_WRITE =
0x39, and MIPI_DSI_DT_PACKED_PIXEL_STREAM_RGB_24 = 0x3E, and the whole
enumeration maps to exactly the initializer list of the source. -/
theorem c1_data_type_constants_have_specified_values :
    dataTypeVal .MIPI_DSI_DT_VSYNC_START = 0x01 ∧
    dataTypeVal .MIPI_DSI_DT_DCS_LONG_WRITE = 0x39 ∧
    dataTypeVal .MIPI_DSI_DT_PACKED_PIXEL_STREAM_RGB_24 = 0x3E ∧
    dataTypeMembers.map dataTypeVal =
      [0x01, 0x11, 0x21, 0x31, 0x08, 0x02, 0x12, 0x22, 0x32,
       0x03, 0x13, 0x23, 0x04, 0x14, 0x24, 0x05, 0x15, 0x06,
       0x37, 0x09, 0x19, 0x29, 0x39, 0x0E, 0x1E, 0x2E, 0x3E] := by
  refine ⟨rfl, rfl, rfl, rfl⟩

/-- C2: the test-pattern enumeration has exactly four members, listed in
the order NONE, BAR_VERTICAL, BAR_HORIZONTAL, BER_VERTICAL, and they take
the consecutive values 0, 1, 2, 3. -/
theorem c2_pattern_enum_four_members_in_order :
    Fintype.card mipi_dsi_pattern_type_t = 4 ∧
    patternMembers =
      [ .MIPI_DSI_PATTERN_NONE
      , .MIPI_DSI_PATTERN_BAR_VERTICAL
      , .MIPI_DSI_PATTERN_BAR_HORIZONTAL
      , .MIPI_DSI_PATTERN_BER_VERTICAL ] ∧
    patternMembers.map patternVal = [0, 1, 2, 3] ∧
    (∀ p : mipi_dsi_pattern_type_t, p ∈ patternMembers) := by
  refine ⟨by decide, rfl, rfl, by decide⟩

/-- C3: every packet data-type code is an 8-bit constant: the value of every
member of `mipi_dsi_data_type_t` lies in the range 0 to 0xFF, so each code
fits in one byte (the packed enumeration's storage unit). -/
theorem c3_data_type_codes_fit_in_one_byte :
    ∀ d : mipi_dsi_data_type_t, dataTypeVal d ≤ 0xFF ∧ dataTypeVal d < 2 ^ 8 := by
  decide

/-- C4: when SOC_MIPI_DSI_SUPPORTED is enabled the clock-source aliases
resolve to the platform-specific types, otherwise both resolve to the
generic integer type, and both branches yield an inhabited (compilable,
usable) type for a consumer. -/
theorem c4_clock_source_aliases_resolve_per_branch :
    mipi_dsi_phy_clock_source_t true = soc_periph_mipi_dsi_phy_clk_src_t ∧
    mipi_dsi_dpi_clock_source_t true = soc_periph_mipi_dsi_dpi_clk_src_t ∧
    mipi_dsi_phy_clock_source_t false = Int ∧
    mipi_dsi_dpi_clock_source_t false = Int ∧
    Nonempty (mipi_dsi_phy_clock_source_t true) ∧
    Nonempty (mipi_dsi_phy_clock_source_t false) ∧
    Nonempty (mipi_dsi_dpi_clock_source_t true) ∧
    Nonempty (mipi_dsi_dpi_clock_source_t false) :=
  ⟨rfl, rfl, rfl, rfl, ⟨⟨0⟩⟩, ⟨(0 : Int)⟩, ⟨⟨0⟩⟩, ⟨(0 : Int)⟩⟩

/-- C5: the 27 members of `mipi_dsi_data_type_t` are pairwise distinct in
value: the member list is complete, has length 27, and mapping it through
the value function yields a duplicate-free list, so a data-type code
identifies a unique packet kind. -/
theorem c5_data_type_values_pairwise_distinct :
    dataTypeMembers.length = 27 ∧
    (∀ d : mipi_dsi_data_type_t, d ∈ dataTypeMembers) ∧
    (dataTypeMembers.map dataTypeVal).Nodup := by
  refine ⟨rfl, by decide, by decide⟩

/-- C6: every member of `mipi_dsi_data_type_t` has value at most 0x3E, hence
strictly below 0x40, so every code fits the 6-bit data-type field of a DSI
packet header with the top two bits of the byte clear. -/
theorem c6_data_type_codes_fit_six_bits :
    ∀ d : mipi_dsi_data_type_t,
      dataTypeVal d ≤ 0x3E ∧ dataTypeVal d < 0x40 ∧ dataTypeVal d / 0x40 = 0 := by
  decide

/-- C7: MIPI_DSI_PATTERN_NONE has value 0, and it is the only pattern
enumerator with value 0, so a zero-initialized `mipi_dsi_pattern_type_t`
selects no test pattern. -/
theorem c7_pattern_none_is_zero :
    patternVal .MIPI_DSI_PATTERN_NONE = 0 ∧
    (∀ p : mipi_dsi_pattern_type_t,
      patternVal p = 0 ↔ p = .MIPI_DSI_PATTERN_NONE) := by
  refine ⟨rfl, by decide⟩

/-- C8: the packet data-type codes are compile-time constants with no
runtime lifecycle: the value of every enumerator is the fixed build-time
literal of the source, and the header exports no function or mutable
variable, so no operation in the file can change any code. -/
theorem c8_data_type_codes_are_immutable_constants :
    (dataTypeMembers.map dataTypeVal =
      [0x01, 0x11, 0x21, 0x31, 0x08, 0x02, 0x12, 0x22, 0x32,
       0x03, 0x13, 0x23, 0x04, 0x14, 0x24, 0x05, 0x15, 0x06,
       0x37, 0x09, 0x19, 0x29, 0x39, 0x0E, 0x1E, 0x2E, 0x3E]) ∧
    (mipi_dsi_types_h_decls.all
      (fun d => decide (d.kind ≠ CDeclKind.functionDecl ∧
                        d.kind ≠ CDeclKind.variableDecl)) = true) := by
  refine ⟨rfl, by decide⟩

/-- C9: the header defines no fallible operations: every declaration it
exports is an enumeration or a typedef, and none is a function, so nothing
declared in the file can fail or return an error. -/
theorem c9_header_declares_no_operations :
    (mipi_dsi_types_h_decls.all
      (fun d => decide (d.kind = CDeclKind.enumDecl ∨
                        d.kind = CDeclKind.typedefDecl)) = true) ∧
    mipi_dsi_types_h_decls.countP (fun d => d.kind == CDeclKind.functionDecl) = 0 := by
  refine ⟨by decide, by decide⟩

end MipiDsi
